import Mathlib

/-
  Verification development for the MineAlert repository.

  Shallow embedding conventions:
  * Python floats are idealised as exact rationals (drone simulator) or
    reals (detection simulator, whose distance function uses a square root).
  * Calls to random.random() are modelled by an oracle stream of draws
    rnd : Nat -> Real together with an index that is threaded through the
    computation exactly in the order the source consumes draws.
  * Wall-clock time (time.time(), datetime.now()) is modelled by explicit
    rational parameters.
-/

namespace MineAlert

/-! ## Drone simulator (src/drone_simulator.py) -/

namespace DroneSim

/-- State of DroneSimulator: the mutable instance attributes set in
DroneSimulator.__init__.  The flight characteristics max_speed,
max_altitude, min_altitude and movement_step are set in __init__ and never
modified, so they are embedded as constants below. -/
structure DroneState where
  initial_lat : ℚ
  initial_lng : ℚ
  latitude : ℚ
  longitude : ℚ
  altitude : ℚ
  speed : ℚ
  heading : ℤ
  battery_level : ℚ
  signal_strength : ℚ
  last_update_time : ℚ
  is_flying : Bool
deriving DecidableEq

/-- max_speed = 10.0 m per s, set in __init__. -/
def max_speed : ℚ := 10

/-- max_altitude = 50.0 meters, set in __init__. -/
def max_altitude : ℚ := 50

/-- min_altitude = 5.0 meters, set in __init__. -/
def min_altitude : ℚ := 5

/-- movement_step = 0.0001 degrees, set in __init__. -/
def movement_step : ℚ := 1 / 10000

/-- DroneSimulator.__init__(initial_lat, initial_lng, initial_altitude);
t0 is the value of time.time() at construction. -/
def mkDroneSimulator (initial_lat initial_lng initial_altitude t0 : ℚ) :
    DroneState :=
  { initial_lat := initial_lat
    initial_lng := initial_lng
    latitude := initial_lat
    longitude := initial_lng
    altitude := initial_altitude
    speed := 0
    heading := 0
    battery_level := 100
    signal_strength := 95
    last_update_time := t0
    is_flying := false }

/-- The default-argument constructor call DroneSimulator(): initial_lat = 0.0,
initial_lng = 0.0, initial_altitude = 10.0. -/
def defaultDrone (t0 : ℚ) : DroneState := mkDroneSimulator 0 0 10 t0

/-- DroneSimulator._consume_battery: battery_level = max(0, battery_level - amount). -/
def consume_battery (amount : ℚ) (s : DroneState) : DroneState :=
  { s with battery_level := max 0 (s.battery_level - amount) }

/-- DroneSimulator.takeoff. -/
def takeoff (s : DroneState) : DroneState :=
  { s with is_flying := true, altitude := 10, speed := 1 }

/-- DroneSimulator.land. -/
def land (s : DroneState) : DroneState :=
  { s with is_flying := false, altitude := 0, speed := 0 }

/-- DroneSimulator.move_forward. -/
def move_forward (s : DroneState) : DroneState :=
  if s.is_flying then
    consume_battery (2 / 10)
      { s with latitude := s.latitude + movement_step, speed := 2, heading := 0 }
  else s

/-- DroneSimulator.move_backward. -/
def move_backward (s : DroneState) : DroneState :=
  if s.is_flying then
    consume_battery (2 / 10)
      { s with latitude := s.latitude - movement_step, speed := 2, heading := 180 }
  else s

/-- DroneSimulator.move_left. -/
def move_left (s : DroneState) : DroneState :=
  if s.is_flying then
    consume_battery (2 / 10)
      { s with longitude := s.longitude - movement_step, speed := 2, heading := 270 }
  else s

/-- DroneSimulator.move_right. -/
def move_right (s : DroneState) : DroneState :=
  if s.is_flying then
    consume_battery (2 / 10)
      { s with longitude := s.longitude + movement_step, speed := 2, heading := 90 }
  else s

/-- DroneSimulator.move_up. -/
def move_up (s : DroneState) : DroneState :=
  if s.is_flying ∧ s.altitude < max_altitude then
    consume_battery (3 / 10) { s with altitude := s.altitude + 1 }
  else s

/-- DroneSimulator.move_down. -/
def move_down (s : DroneState) : DroneState :=
  if s.is_flying ∧ s.altitude > min_altitude then
    consume_battery (1 / 10) { s with altitude := s.altitude - 1 }
  else s

/-- DroneSimulator.return_to_home. -/
def return_to_home (s : DroneState) : DroneState :=
  if s.is_flying then
    consume_battery (5 / 10)
      { s with latitude := s.latitude * (8 / 10) + s.initial_lat * (2 / 10)
               longitude := s.longitude * (8 / 10) + s.initial_lng * (2 / 10)
               speed := 5 }
  else s

/-- DroneSimulator.emergency_stop. -/
def emergency_stop (s : DroneState) : DroneState :=
  { s with speed := 0, altitude := 0, is_flying := false }

/-- DroneSimulator.update_status, with the wall clock reading time.time() = t
and the random draws passed explicitly: driftOn is the 30 percent drift coin,
dlat and dlng the two uniform(-0.00001, 0.00001) drift draws, dspeed the
uniform(-0.2, 0.2) speed variation, dsig the uniform(-2, 2) signal variation.
The sequential field mutations of the source accumulate to this single
record update (the battery consumption reads none of the later updates, the
drift reads the pre-call position, the speed and signal clamps read the
pre-call speed and signal). -/
def update_status (t : ℚ) (driftOn : Bool) (dlat dlng dspeed dsig : ℚ)
    (s : DroneState) : DroneState :=
  if s.is_flying then
    { s with
      battery_level := max 0 (s.battery_level - 5 / 100 * (t - s.last_update_time))
      latitude := if driftOn then s.latitude + dlat else s.latitude
      longitude := if driftOn then s.longitude + dlng else s.longitude
      speed := max 0 (min max_speed (s.speed + dspeed))
      signal_strength := max 60 (min 100 (s.signal_strength + dsig))
      last_update_time := t }
  else
    { s with
      battery_level := max 0 (s.battery_level - 1 / 100 * (t - s.last_update_time))
      speed := 0
      signal_strength := max 60 (min 100 (s.signal_strength + dsig))
      last_update_time := t }

/-- One public operation of DroneSimulator.  The update_status case carries
the facts the runtime guarantees about its hidden inputs: time.time() is
monotone across calls, and the uniform draws lie in their ranges. -/
inductive Step : DroneState → DroneState → Prop where
  | stepTakeoff (s : DroneState) : Step s (takeoff s)
  | stepLand (s : DroneState) : Step s (land s)
  | stepMoveForward (s : DroneState) : Step s (move_forward s)
  | stepMoveBackward (s : DroneState) : Step s (move_backward s)
  | stepMoveLeft (s : DroneState) : Step s (move_left s)
  | stepMoveRight (s : DroneState) : Step s (move_right s)
  | stepMoveUp (s : DroneState) : Step s (move_up s)
  | stepMoveDown (s : DroneState) : Step s (move_down s)
  | stepReturnToHome (s : DroneState) : Step s (return_to_home s)
  | stepEmergencyStop (s : DroneState) : Step s (emergency_stop s)
  | stepUpdateStatus (s : DroneState) (t dlat dlng dspeed dsig : ℚ) (driftOn : Bool)
      (ht : s.last_update_time ≤ t)
      (hdlat : -(1 / 100000) ≤ dlat ∧ dlat ≤ 1 / 100000)
      (hdlng : -(1 / 100000) ≤ dlng ∧ dlng ≤ 1 / 100000)
      (hdspeed : -(2 / 10) ≤ dspeed ∧ dspeed ≤ 2 / 10)
      (hdsig : -2 ≤ dsig ∧ dsig ≤ 2) :
      Step s (update_status t driftOn dlat dlng dspeed dsig s)

/-- States reachable from a freshly constructed simulator with default
arguments, by any sequence of public operations. -/
def Reachable (t0 : ℚ) (s : DroneState) : Prop :=
  Relation.ReflTransGen Step (defaultDrone t0) s

/-- Claim C3: for every flying state, move_forward adds exactly
movement_step = 0.0001 to latitude, sets speed to 2.0 and heading to 0,
decreases battery_level by 0.2 clamped below at 0, and leaves longitude,
altitude and is_flying unchanged; move_backward, move_left and move_right
behave symmetrically (subtract from latitude with heading 180; subtract from
longitude with heading 270; add to longitude with heading 90). -/
theorem moves_C3 (s : DroneState) (hf : s.is_flying = true) :
    ((move_forward s).latitude = s.latitude + movement_step ∧
     (move_forward s).longitude = s.longitude ∧
     (move_forward s).altitude = s.altitude ∧
     (move_forward s).is_flying = s.is_flying ∧
     (move_forward s).speed = 2 ∧
     (move_forward s).heading = 0 ∧
     (move_forward s).battery_level = max 0 (s.battery_level - 2 / 10)) ∧
    ((move_backward s).latitude = s.latitude - movement_step ∧
     (move_backward s).longitude = s.longitude ∧
     (move_backward s).altitude = s.altitude ∧
     (move_backward s).is_flying = s.is_flying ∧
     (move_backward s).speed = 2 ∧
     (move_backward s).heading = 180 ∧
     (move_backward s).battery_level = max 0 (s.battery_level - 2 / 10)) ∧
    ((move_left s).longitude = s.longitude - movement_step ∧
     (move_left s).latitude = s.latitude ∧
     (move_left s).altitude = s.altitude ∧
     (move_left s).is_flying = s.is_flying ∧
     (move_left s).speed = 2 ∧
     (move_left s).heading = 270 ∧
     (move_left s).battery_level = max 0 (s.battery_level - 2 / 10)) ∧
    ((move_right s).longitude = s.longitude + movement_step ∧
     (move_right s).latitude = s.latitude ∧
     (move_right s).altitude = s.altitude ∧
     (move_right s).is_flying = s.is_flying ∧
     (move_right s).speed = 2 ∧
     (move_right s).heading = 90 ∧
     (move_right s).battery_level = max 0 (s.battery_level - 2 / 10)) := by
  simp [move_forward, move_backward, move_left, move_right, consume_battery, hf]

/-- Witness for C3: the state right after takeoff from the default
constructor is flying, and the horizontal moves shift the position by
exactly one movement_step each. -/
theorem moves_C3_witness :
    (takeoff (defaultDrone 0)).is_flying = true ∧
    (move_forward (takeoff (defaultDrone 0))).latitude =
      (takeoff (defaultDrone 0)).latitude + movement_step ∧
    (move_backward (takeoff (defaultDrone 0))).latitude =
      (takeoff (defaultDrone 0)).latitude - movement_step ∧
    (move_left (takeoff (defaultDrone 0))).longitude =
      (takeoff (defaultDrone 0)).longitude - movement_step ∧
    (move_right (takeoff (defaultDrone 0))).longitude =
      (takeoff (defaultDrone 0)).longitude + movement_step :=
  ⟨rfl, (moves_C3 _ rfl).1.1, (moves_C3 _ rfl).2.1.1,
   (moves_C3 _ rfl).2.2.1.1, (moves_C3 _ rfl).2.2.2.1⟩

/-- Claim C7: when is_flying is false, each of move_forward, move_backward,
move_left, move_right, move_up, move_down and return_to_home leaves every
field of the state unchanged: movement is possible only in the flying state
of the flying/landed state machine. -/
theorem grounded_frame_C7 (s : DroneState) (hnf : s.is_flying = false) :
    move_forward s = s ∧ move_backward s = s ∧ move_left s = s ∧
    move_right s = s ∧ move_up s = s ∧ move_down s = s ∧
    return_to_home s = s := by
  simp [move_forward, move_backward, move_left, move_right, move_up,
    move_down, return_to_home, hnf]

/-- Witness for C7: the freshly constructed simulator is not flying and all
seven movement operations leave it unchanged. -/
theorem grounded_frame_C7_witness :
    (defaultDrone 0).is_flying = false ∧
    (move_forward (defaultDrone 0) = defaultDrone 0 ∧
     move_backward (defaultDrone 0) = defaultDrone 0 ∧
     move_left (defaultDrone 0) = defaultDrone 0 ∧
     move_right (defaultDrone 0) = defaultDrone 0 ∧
     move_up (defaultDrone 0) = defaultDrone 0 ∧
     move_down (defaultDrone 0) = defaultDrone 0 ∧
     return_to_home (defaultDrone 0) = defaultDrone 0) :=
  ⟨rfl, grounded_frame_C7 (defaultDrone 0) rfl⟩

/-- Key arithmetic fact behind _consume_battery: the clamped subtraction
never goes below zero and never increases a nonnegative battery level. -/
lemma max_sub_le (b a : ℚ) (hb : 0 ≤ b) (ha : 0 ≤ a) : max 0 (b - a) ≤ b :=
  max_le hb (by linarith)

/-- Altitude invariant: while flying, the altitude is an integer number of
meters between min_altitude and max_altitude. -/
def AltInv (s : DroneState) : Prop :=
  s.is_flying = true → ∃ n : ℤ, s.altitude = (n : ℚ) ∧ 5 ≤ n ∧ n ≤ 50

lemma altInv_init (t0 : ℚ) : AltInv (defaultDrone t0) := by
  intro hfly
  simp [defaultDrone, mkDroneSimulator] at hfly

lemma altInv_step {s s' : DroneState} (h : AltInv s) (hst : Step s s') :
    AltInv s' := by
  cases hst with
  | stepTakeoff => exact fun _ => ⟨10, by norm_num [takeoff]⟩
  | stepLand => intro hfly; simp [land] at hfly
  | stepEmergencyStop => intro hfly; simp [emergency_stop] at hfly
  | stepMoveForward =>
      unfold move_forward; split_ifs <;> exact h
  | stepMoveBackward =>
      unfold move_backward; split_ifs <;> exact h
  | stepMoveLeft =>
      unfold move_left; split_ifs <;> exact h
  | stepMoveRight =>
      unfold move_right; split_ifs <;> exact h
  | stepMoveUp =>
      unfold move_up; split_ifs with hc
      · intro _
        obtain ⟨hf, hlt⟩ := hc
        obtain ⟨n, hn, h5, h50⟩ := h hf
        have hn50 : (n : ℚ) < 50 := by
          rw [← hn]; simpa [max_altitude] using hlt
        have : n < 50 := by exact_mod_cast hn50
        refine ⟨n + 1, ?_, by omega, by omega⟩
        show s.altitude + 1 = ((n + 1 : ℤ) : ℚ)
        rw [hn]; push_cast; ring
      · exact h
  | stepMoveDown =>
      unfold move_down; split_ifs with hc
      · intro _
        obtain ⟨hf, hgt⟩ := hc
        obtain ⟨n, hn, h5, h50⟩ := h hf
        have hn5 : (5 : ℚ) < (n : ℚ) := by
          rw [← hn]; simpa [min_altitude] using hgt
        have : 5 < n := by exact_mod_cast hn5
        refine ⟨n - 1, ?_, by omega, by omega⟩
        show s.altitude - 1 = ((n - 1 : ℤ) : ℚ)
        rw [hn]; push_cast; ring
      · exact h
  | stepReturnToHome =>
      unfold return_to_home; split_ifs <;> exact h
  | stepUpdateStatus t dlat dlng dspeed dsig driftOn ht h1 h2 h3 h4 =>
      unfold update_status; split_ifs <;> exact h

lemma reachable_altInv {t0 : ℚ} {s : DroneState} (h : Reachable t0 s) :
    AltInv s := by
  induction h with
  | refl => exact altInv_init t0
  | tail _ hstep ih => exact altInv_step ih hstep

/-- Claim C2: in every state reachable from a freshly constructed simulator
(default arguments) by any sequence of the public operations, if is_flying
is true then the altitude lies in the clamped range
[min_altitude, max_altitude] = [5.0, 50.0]. -/
theorem altitude_range_C2 (t0 : ℚ) (s : DroneState) (hs : Reachable t0 s)
    (hf : s.is_flying = true) :
    min_altitude ≤ s.altitude ∧ s.altitude ≤ max_altitude := by
  obtain ⟨n, hn, h5, h50⟩ := reachable_altInv hs hf
  rw [hn]
  unfold min_altitude max_altitude
  exact ⟨by exact_mod_cast h5, by exact_mod_cast h50⟩

/-- Witness for C2: the state right after takeoff is reachable, flying, and
its altitude 10.0 lies in [5.0, 50.0]. -/
theorem altitude_range_C2_witness :
    (takeoff (defaultDrone 0)).is_flying = true ∧
    min_altitude ≤ (takeoff (defaultDrone 0)).altitude ∧
    (takeoff (defaultDrone 0)).altitude ≤ max_altitude :=
  ⟨rfl, altitude_range_C2 0 (takeoff (defaultDrone 0))
    (Relation.ReflTransGen.single (Step.stepTakeoff _)) rfl⟩

/-- Battery invariant: the battery level stays in [0, 100]. -/
def BatteryInv (s : DroneState) : Prop :=
  0 ≤ s.battery_level ∧ s.battery_level ≤ 100

lemma batteryInv_init (t0 : ℚ) : BatteryInv (defaultDrone t0) := by
  constructor <;> norm_num [defaultDrone, mkDroneSimulator]

lemma batteryInv_step {s s' : DroneState} (h : BatteryInv s) (hst : Step s s') :
    BatteryInv s' := by
  obtain ⟨h0, h100⟩ := h
  have hmax : ∀ a : ℚ, 0 ≤ a →
      0 ≤ max 0 (s.battery_level - a) ∧ max 0 (s.battery_level - a) ≤ 100 :=
    fun a ha => ⟨le_max_left _ _, le_trans (max_sub_le _ _ h0 ha) h100⟩
  cases hst with
  | stepTakeoff => exact ⟨h0, h100⟩
  | stepLand => exact ⟨h0, h100⟩
  | stepEmergencyStop => exact ⟨h0, h100⟩
  | stepMoveForward =>
      unfold move_forward; split_ifs
      · exact hmax _ (by norm_num)
      · exact ⟨h0, h100⟩
  | stepMoveBackward =>
      unfold move_backward; split_ifs
      · exact hmax _ (by norm_num)
      · exact ⟨h0, h100⟩
  | stepMoveLeft =>
      unfold move_left; split_ifs
      · exact hmax _ (by norm_num)
      · exact ⟨h0, h100⟩
  | stepMoveRight =>
      unfold move_right; split_ifs
      · exact hmax _ (by norm_num)
      · exact ⟨h0, h100⟩
  | stepMoveUp =>
      unfold move_up; split_ifs
      · exact hmax _ (by norm_num)
      · exact ⟨h0, h100⟩
  | stepMoveDown =>
      unfold move_down; split_ifs
      · exact hmax _ (by norm_num)
      · exact ⟨h0, h100⟩
  | stepReturnToHome =>
      unfold return_to_home; split_ifs
      · exact hmax _ (by norm_num)
      · exact ⟨h0, h100⟩
  | stepUpdateStatus t dlat dlng dspeed dsig driftOn ht h1 h2 h3 h4 =>
      have he : (0 : ℚ) ≤ t - s.last_update_time := by linarith
      have ha5 : (0 : ℚ) ≤ 5 / 100 * (t - s.last_update_time) :=
        mul_nonneg (by norm_num) he
      have ha1 : (0 : ℚ) ≤ 1 / 100 * (t - s.last_update_time) :=
        mul_nonneg (by norm_num) he
      unfold update_status
      by_cases hf : s.is_flying = true
      · rw [if_pos hf]
        exact hmax _ ha5
      · rw [if_neg hf]
        exact hmax _ ha1

lemma reachable_batteryInv {t0 : ℚ} {s : DroneState} (h : Reachable t0 s) :
    BatteryInv s := by
  induction h with
  | refl => exact batteryInv_init t0
  | tail _ hstep ih => exact batteryInv_step ih hstep

/-- Claim C6: in every state reachable from a freshly constructed simulator
by any sequence of the public operations, 0 <= battery_level <= 100. -/
theorem battery_range_C6 (t0 : ℚ) (s : DroneState) (hs : Reachable t0 s) :
    0 ≤ s.battery_level ∧ s.battery_level ≤ 100 :=
  reachable_batteryInv hs

/-- Witness for C6: the freshly constructed simulator is reachable and its
battery level 100 lies in [0, 100]. -/
theorem battery_range_C6_witness :
    0 ≤ (defaultDrone 0).battery_level ∧ (defaultDrone 0).battery_level ≤ 100 :=
  battery_range_C6 0 (defaultDrone 0) Relation.ReflTransGen.refl

/-- Claim C9: battery_level is monotonically non-increasing: in every
reachable state, every public operation (takeoff, land, every move,
return_to_home, emergency_stop, and update_status at any later clock reading
and any drift draws) leaves the battery level less than or equal to what it
was; no operation recharges the battery. -/
theorem battery_monotone_C9 (t0 : ℚ) (s : DroneState) (hs : Reachable t0 s)
    (t dlat dlng dspeed dsig : ℚ) (driftOn : Bool)
    (ht : s.last_update_time ≤ t) :
    (takeoff s).battery_level ≤ s.battery_level ∧
    (land s).battery_level ≤ s.battery_level ∧
    (move_forward s).battery_level ≤ s.battery_level ∧
    (move_backward s).battery_level ≤ s.battery_level ∧
    (move_left s).battery_level ≤ s.battery_level ∧
    (move_right s).battery_level ≤ s.battery_level ∧
    (move_up s).battery_level ≤ s.battery_level ∧
    (move_down s).battery_level ≤ s.battery_level ∧
    (return_to_home s).battery_level ≤ s.battery_level ∧
    (emergency_stop s).battery_level ≤ s.battery_level ∧
    (update_status t driftOn dlat dlng dspeed dsig s).battery_level ≤
      s.battery_level := by
  have h0 : 0 ≤ s.battery_level := (reachable_batteryInv hs).1
  refine ⟨le_refl _, le_refl _, ?_, ?_, ?_, ?_, ?_, ?_, ?_, le_refl _, ?_⟩
  · unfold move_forward; split_ifs
    · exact max_sub_le _ _ h0 (by norm_num)
    · exact le_refl _
  · unfold move_backward; split_ifs
    · exact max_sub_le _ _ h0 (by norm_num)
    · exact le_refl _
  · unfold move_left; split_ifs
    · exact max_sub_le _ _ h0 (by norm_num)
    · exact le_refl _
  · unfold move_right; split_ifs
    · exact max_sub_le _ _ h0 (by norm_num)
    · exact le_refl _
  · unfold move_up; split_ifs
    · exact max_sub_le _ _ h0 (by norm_num)
    · exact le_refl _
  · unfold move_down; split_ifs
    · exact max_sub_le _ _ h0 (by norm_num)
    · exact le_refl _
  · unfold return_to_home; split_ifs
    · exact max_sub_le _ _ h0 (by norm_num)
    · exact le_refl _
  · have he : (0 : ℚ) ≤ t - s.last_update_time := by linarith
    unfold update_status
    by_cases hf : s.is_flying = true
    · rw [if_pos hf]
      exact max_sub_le s.battery_level (5 / 100 * (t - s.last_update_time)) h0
        (mul_nonneg (by norm_num) he)
    · rw [if_neg hf]
      exact max_sub_le s.battery_level (1 / 100 * (t - s.last_update_time)) h0
        (mul_nonneg (by norm_num) he)

/-- Witness for C9: on the freshly constructed simulator (reachable, clock
still at its construction reading) a forward move and a status update do not
raise the battery level. -/
theorem battery_monotone_C9_witness :
    (defaultDrone 0).last_update_time ≤ 0 ∧
    (move_forward (defaultDrone 0)).battery_level ≤
      (defaultDrone 0).battery_level ∧
    (update_status 0 false 0 0 0 0 (defaultDrone 0)).battery_level ≤
      (defaultDrone 0).battery_level :=
  ⟨le_refl _,
   (battery_monotone_C9 0 (defaultDrone 0) Relation.ReflTransGen.refl
      0 0 0 0 0 false (le_refl _)).2.2.1,
   (battery_monotone_C9 0 (defaultDrone 0) Relation.ReflTransGen.refl
      0 0 0 0 0 false (le_refl _)).2.2.2.2.2.2.2.2.2.2⟩

/-- Squared Euclidean distance from the current position to the home
(initial) position; the distance to home is its square root. -/
def dist_to_home_sq (s : DroneState) : ℚ :=
  (s.latitude - s.initial_lat) ^ 2 + (s.longitude - s.initial_lng) ^ 2

lemma return_to_home_flying (s : DroneState) (hf : s.is_flying = true) :
    (return_to_home s).latitude
        = s.latitude * (8 / 10) + s.initial_lat * (2 / 10) ∧
    (return_to_home s).longitude
        = s.longitude * (8 / 10) + s.initial_lng * (2 / 10) ∧
    (return_to_home s).initial_lat = s.initial_lat ∧
    (return_to_home s).initial_lng = s.initial_lng ∧
    (return_to_home s).is_flying = true := by
  simp [return_to_home, consume_battery, hf]

lemma return_to_home_iter (s : DroneState) (hf : s.is_flying = true) (n : ℕ) :
    (return_to_home^[n] s).latitude - s.initial_lat
        = (8 / 10 : ℚ) ^ n * (s.latitude - s.initial_lat) ∧
    (return_to_home^[n] s).longitude - s.initial_lng
        = (8 / 10 : ℚ) ^ n * (s.longitude - s.initial_lng) ∧
    (return_to_home^[n] s).initial_lat = s.initial_lat ∧
    (return_to_home^[n] s).initial_lng = s.initial_lng ∧
    (return_to_home^[n] s).is_flying = true := by
  induction n with
  | zero => simpa using hf
  | succ n ih =>
      obtain ⟨hlat, hlng, hil, hilg, hfly⟩ := ih
      rw [Function.iterate_succ_apply']
      obtain ⟨hl2, hg2, hi2, hi3, hf2⟩ := return_to_home_flying _ hfly
      refine ⟨?_, ?_, ?_, ?_, hf2⟩
      · rw [hl2, hil, pow_succ]
        linear_combination (8 / 10 : ℚ) * hlat
      · rw [hg2, hilg, pow_succ]
        linear_combination (8 / 10 : ℚ) * hlng
      · rw [hi2, hil]
      · rw [hi3, hilg]

/-- Claim C10: for every flying state, return_to_home sets latitude to
0.8 * latitude + 0.2 * initial_lat and longitude to
0.8 * longitude + 0.2 * initial_lng; the (exact-arithmetic) distance to home
shrinks by a factor of 0.8 per call, and a drone whose position differs from
home never reaches exactly the home position after any finite number of
return_to_home calls. -/
theorem return_to_home_C10 (s : DroneState) (hf : s.is_flying = true) :
    ((return_to_home s).latitude
        = s.latitude * (8 / 10) + s.initial_lat * (2 / 10) ∧
     (return_to_home s).longitude
        = s.longitude * (8 / 10) + s.initial_lng * (2 / 10)) ∧
    dist_to_home_sq (return_to_home s) = (8 / 10 : ℚ) ^ 2 * dist_to_home_sq s ∧
    Real.sqrt ((dist_to_home_sq (return_to_home s) : ℝ))
        = (8 / 10 : ℝ) * Real.sqrt ((dist_to_home_sq s : ℝ)) ∧
    (¬(s.latitude = s.initial_lat ∧ s.longitude = s.initial_lng) →
      ∀ n : ℕ, ¬((return_to_home^[n] s).latitude = s.initial_lat ∧
                 (return_to_home^[n] s).longitude = s.initial_lng)) := by
  obtain ⟨hl, hg, hi, hi2, _⟩ := return_to_home_flying s hf
  have hsq : dist_to_home_sq (return_to_home s)
      = (8 / 10 : ℚ) ^ 2 * dist_to_home_sq s := by
    unfold dist_to_home_sq
    rw [hl, hg, hi, hi2]
    ring
  refine ⟨⟨hl, hg⟩, hsq, ?_, ?_⟩
  · have hcast : ((dist_to_home_sq (return_to_home s) : ℝ))
        = (8 / 10 : ℝ) ^ 2 * ((dist_to_home_sq s : ℝ)) := by
      rw [hsq]; push_cast; ring
    rw [hcast, Real.sqrt_mul (by positivity),
      Real.sqrt_sq (by norm_num : (0 : ℝ) ≤ 8 / 10)]
  · intro hne n hzero
    obtain ⟨hlat, hlng, _, _, _⟩ := return_to_home_iter s hf n
    have hq : ((8 : ℚ) / 10) ^ n ≠ 0 := pow_ne_zero n (by norm_num)
    refine hne ⟨?_, ?_⟩
    · have h1 : (8 / 10 : ℚ) ^ n * (s.latitude - s.initial_lat) = 0 := by
        rw [← hlat, hzero.1]; ring
      have := (mul_eq_zero.mp h1).resolve_left hq
      linarith
    · have h2 : (8 / 10 : ℚ) ^ n * (s.longitude - s.initial_lng) = 0 := by
        rw [← hlng, hzero.2]; ring
      have := (mul_eq_zero.mp h2).resolve_left hq
      linarith

/-- Flying state one movement step north of its home position, used to
witness C10. -/
def homeTestState : DroneState :=
  { initial_lat := 0, initial_lng := 0, latitude := 1, longitude := 0,
    altitude := 10, speed := 1, heading := 0, battery_level := 100,
    signal_strength := 95, last_update_time := 0, is_flying := true }

/-- Witness for C10: a flying drone one degree north of home contracts
toward home and is still away from home after two return_to_home calls. -/
theorem return_to_home_C10_witness :
    homeTestState.is_flying = true ∧
    ¬(homeTestState.latitude = homeTestState.initial_lat ∧
      homeTestState.longitude = homeTestState.initial_lng) ∧
    (return_to_home homeTestState).latitude
        = homeTestState.latitude * (8 / 10) + homeTestState.initial_lat * (2 / 10) ∧
    ¬((return_to_home^[2] homeTestState).latitude = homeTestState.initial_lat ∧
      (return_to_home^[2] homeTestState).longitude = homeTestState.initial_lng) :=
  ⟨rfl, by decide, ((return_to_home_C10 homeTestState rfl).1).1,
   (return_to_home_C10 homeTestState rfl).2.2.2 (by decide) 2⟩

end DroneSim

/-! ## Detection simulator (src/detection_simulator.py)

Randomness is modelled by the oracle stream rnd : Nat -> Real of successive
random.random() draws together with the index of the next unconsumed draw,
threaded through the computation in source order.  random.uniform(a, b) is
modelled as a + (b - a) * u for the next draw u, and
random.choices(population, weights) as a cumulative-weights threshold test
on the next draw, both as in the CPython implementations. -/

namespace DetectionSim

/-- One hotspot dictionary: lat, lon, radius, probability. -/
structure Hotspot where
  lat : ℝ
  lon : ℝ
  radius : ℝ
  probability : ℝ

/-- DetectionSimulator.landmine_hotspots. -/
def landmine_hotspots : List Hotspot :=
  [⟨34.0522, -118.2437, 0.001, 0.7⟩,
   ⟨34.0530, -118.2450, 0.0008, 0.6⟩,
   ⟨34.0515, -118.2420, 0.0005, 0.8⟩]

/-- DetectionSimulator.debris_hotspots. -/
def debris_hotspots : List Hotspot :=
  [⟨34.0525, -118.2440, 0.002, 0.5⟩,
   ⟨34.0518, -118.2435, 0.001, 0.4⟩,
   ⟨34.0528, -118.2430, 0.001, 0.6⟩]

/-- DetectionSimulator.safe_hotspots. -/
def safe_hotspots : List Hotspot :=
  [⟨34.0535, -118.2455, 0.002, 0.9⟩,
   ⟨34.0510, -118.2415, 0.001, 0.8⟩]

/-- DetectionSimulator.distance: Euclidean distance
math.sqrt((lat1 - lat2) ** 2 + (lon1 - lon2) ** 2). -/
noncomputable def distance (lat1 lon1 lat2 lon2 : ℝ) : ℝ :=
  Real.sqrt ((lat1 - lat2) ^ 2 + (lon1 - lon2) ^ 2)

/-- One of the three for-loops of is_near_hotspot, scanning a hotspot list
with the given classification string: a result of none means the loop fell
through without returning.  A draw is consumed exactly for the hotspots
whose distance test passes, in list order. -/
noncomputable def scanHotspots (cls : String) (rnd : ℕ → ℝ) (lat lon : ℝ) :
    List Hotspot → ℕ → Option (String × ℝ) × ℕ
  | [], i => (none, i)
  | h :: rest, i =>
      if distance lat lon h.lat h.lon < h.radius then
        if rnd i < h.probability then
          (some (cls, h.probability * 100), i + 1)
        else scanHotspots cls rnd lat lon rest (i + 1)
      else scanHotspots cls rnd lat lon rest i

/-- Early-return sequencing: if the first block returned a value, that is
the result; otherwise control falls through to the continuation with the
random-draw index the first block left behind. -/
def scanThen (p : Option (String × ℝ) × ℕ)
    (k : ℕ → Option (String × ℝ) × ℕ) : Option (String × ℝ) × ℕ :=
  match p with
  | (some r, j) => (some r, j)
  | (none, j) => k j

/-- The trailing random-detection block of is_near_hotspot: with the next
draw below 0.05 (the 5 percent chance), random.choices over
["Landmine", "Metal Debris", "Safe Zone"] with weights [0.2, 0.5, 0.3]
picks by cumulative weights on the next draw, and the confidence is
random.uniform(70, 95) on the draw after; otherwise no detection. -/
noncomputable def random_fallback (rnd : ℕ → ℝ) (i : ℕ) :
    Option (String × ℝ) × ℕ :=
  if rnd i < 0.05 then
    (some (if rnd (i + 1) < 0.2 then "Landmine"
           else if rnd (i + 1) < 0.2 + 0.5 then "Metal Debris"
           else "Safe Zone",
           70 + (95 - 70) * rnd (i + 2)), i + 3)
  else (none, i + 1)

/-- The final shape of the return value of is_near_hotspot: a returned
detection keeps its classification and confidence, and the fall-through
return is (None, 0). -/
def finalize : Option (String × ℝ) × ℕ → (Option String × ℝ) × ℕ
  | (some (c, conf), j) => ((some c, conf), j)
  | (none, j) => ((none, 0), j)

/-- DetectionSimulator.is_near_hotspot: the three loops over the landmine,
debris and safe hotspot lists in source order, then the random-detection
block, then the (None, 0) fall-through. -/
noncomputable def is_near_hotspot (rnd : ℕ → ℝ) (i : ℕ) (lat lon : ℝ) :
    (Option String × ℝ) × ℕ :=
  finalize
    (scanThen (scanHotspots "Landmine" rnd lat lon landmine_hotspots i)
      (fun j =>
        scanThen (scanHotspots "Metal Debris" rnd lat lon debris_hotspots j)
          (fun j2 =>
            scanThen (scanHotspots "Safe Zone" rnd lat lon safe_hotspots j2)
              (fun j3 => random_fallback rnd j3))))

/-- Scan of a single list of classification-labelled hotspots, written from
the words of claim C1: a hotspot yields the classification exactly when the
Euclidean distance from the query point to its center is strictly below its
radius and the per-hotspot draw is below its probability, in which case the
confidence is the probability times 100. -/
noncomputable def scan_labeled (rnd : ℕ → ℝ) (lat lon : ℝ) :
    List (String × Hotspot) → ℕ → Option (String × ℝ) × ℕ
  | [], i => (none, i)
  | (cls, h) :: rest, i =>
      if distance lat lon h.lat h.lon < h.radius then
        if rnd i < h.probability then
          (some (cls, h.probability * 100), i + 1)
        else scan_labeled rnd lat lon rest (i + 1)
      else scan_labeled rnd lat lon rest i

/-- The hotspot lists in the fixed scan order of claim C1: landmine, then
debris, then safe, each labelled with its classification. -/
def labeled_hotspots : List (String × Hotspot) :=
  landmine_hotspots.map (fun h => ("Landmine", h)) ++
    (debris_hotspots.map (fun h => ("Metal Debris", h)) ++
      safe_hotspots.map (fun h => ("Safe Zone", h)))

/-- The spec-shaped restatement of is_near_hotspot from the words of claim
C1: one scan of the labelled hotspot lists in the fixed order, and when no
hotspot matches, either a random detection (5 percent chance, confidence
uniform in [70, 95]) or (None, 0). -/
noncomputable def is_near_hotspot_spec (rnd : ℕ → ℝ) (i : ℕ) (lat lon : ℝ) :
    (Option String × ℝ) × ℕ :=
  finalize
    (scanThen (scan_labeled rnd lat lon labeled_hotspots i)
      (fun j =>
        if rnd j < 0.05 then
          (some (if rnd (j + 1) < 0.2 then "Landmine"
                 else if rnd (j + 1) < 0.2 + 0.5 then "Metal Debris"
                 else "Safe Zone",
                 70 + (95 - 70) * rnd (j + 2)), j + 3)
        else (none, j + 1)))

lemma scanThen_assoc (p : Option (String × ℝ) × ℕ)
    (k k2 : ℕ → Option (String × ℝ) × ℕ) :
    scanThen (scanThen p k) k2 = scanThen p (fun j => scanThen (k j) k2) := by
  obtain ⟨o, j⟩ := p
  cases o <;> rfl

lemma scan_labeled_append (cls : String) (hs : List Hotspot)
    (rest : List (String × Hotspot)) (rnd : ℕ → ℝ) (lat lon : ℝ) (i : ℕ) :
    scan_labeled rnd lat lon (hs.map (fun h => (cls, h)) ++ rest) i =
      scanThen (scanHotspots cls rnd lat lon hs i)
        (fun j => scan_labeled rnd lat lon rest j) := by
  induction hs generalizing i with
  | nil => rfl
  | cons h t ih =>
      simp only [List.map_cons, List.cons_append, scan_labeled, scanHotspots]
      by_cases hd : distance lat lon h.lat h.lon < h.radius
      · rw [if_pos hd, if_pos hd]
        by_cases hp : rnd i < h.probability
        · rw [if_pos hp, if_pos hp]
          rfl
        · rw [if_neg hp, if_neg hp]
          exact ih (i + 1)
      · rw [if_neg hd, if_neg hd]
        exact ih i

lemma scan_labeled_map (cls : String) (hs : List Hotspot) (rnd : ℕ → ℝ)
    (lat lon : ℝ) (i : ℕ) :
    scan_labeled rnd lat lon (hs.map (fun h => (cls, h))) i =
      scanHotspots cls rnd lat lon hs i := by
  have h := scan_labeled_append cls hs [] rnd lat lon i
  rw [List.append_nil] at h
  rw [h]
  obtain ⟨o, j⟩ := scanHotspots cls rnd lat lon hs i
  cases o <;> rfl

/-- Claim C1: is_near_hotspot coincides, for every query point and every
stream of random draws, with the spec-shaped description: the hotspot lists
are scanned in the fixed order landmine, debris, safe; a hotspot yields its
classification exactly when the Euclidean distance from the query point to
its center is strictly below its radius and the per-hotspot draw is below
its probability, with confidence probability * 100; and when no hotspot
matches, either a random detection (5 percent chance, confidence uniform in
[70, 95]) or (None, 0) results. -/
theorem is_near_hotspot_C1 (rnd : ℕ → ℝ) (i : ℕ) (lat lon : ℝ) :
    is_near_hotspot rnd i lat lon = is_near_hotspot_spec rnd i lat lon := by
  unfold is_near_hotspot is_near_hotspot_spec labeled_hotspots random_fallback
  simp only [scan_labeled_append, scan_labeled_map, scanThen_assoc]

/-- The detection event dictionary built by check_for_detection, in source
field order: id, timestamp, latitude, longitude, classification,
confidence.  The id is the fresh generate_unique_id() value and the
timestamp the datetime.now() reading, both passed as parameters. -/
structure SimDetection where
  id : String
  timestamp : ℚ
  latitude : ℝ
  longitude : ℝ
  classification : String
  confidence : ℝ

/-- DetectionSimulator.check_for_detection: calls is_near_hotspot and, when
the returned detection type is truthy (a non-None, nonempty string), builds
the detection event; otherwise returns None. -/
noncomputable def check_for_detection (rnd : ℕ → ℝ) (i : ℕ) (uid : String)
    (now : ℚ) (lat lon : ℝ) : Option SimDetection × ℕ :=
  match is_near_hotspot rnd i lat lon with
  | ((some c, conf), j) =>
      if c = "" then (none, j)
      else (some { id := uid, timestamp := now, latitude := lat,
                   longitude := lon, classification := c,
                   confidence := conf }, j)
  | ((none, _), j) => (none, j)

/-- Every classification a scan block can return is one of the three
detection strings. -/
def GoodCls (o : Option (String × ℝ)) : Prop :=
  ∀ c conf, o = some (c, conf) →
    c = "Landmine" ∨ c = "Metal Debris" ∨ c = "Safe Zone"

lemma goodCls_scanHotspots (cls : String)
    (hcls : cls = "Landmine" ∨ cls = "Metal Debris" ∨ cls = "Safe Zone")
    (rnd : ℕ → ℝ) (lat lon : ℝ) (hs : List Hotspot) (i : ℕ) :
    GoodCls (scanHotspots cls rnd lat lon hs i).1 := by
  induction hs generalizing i with
  | nil => intro c conf h; exact absurd h (by simp [scanHotspots])
  | cons h t ih =>
      simp only [scanHotspots]
      split_ifs with hd hp
      · intro c conf heq
        simp only [Option.some.injEq, Prod.mk.injEq] at heq
        rw [← heq.1]
        exact hcls
      · exact ih (i + 1)
      · exact ih i

lemma goodCls_scanThen (p : Option (String × ℝ) × ℕ)
    (k : ℕ → Option (String × ℝ) × ℕ) (hp : GoodCls p.1)
    (hk : ∀ j, GoodCls (k j).1) : GoodCls (scanThen p k).1 := by
  obtain ⟨o, j⟩ := p
  cases o with
  | none => exact hk j
  | some r => exact hp

lemma goodCls_fallback (rnd : ℕ → ℝ) (j : ℕ) :
    GoodCls (random_fallback rnd j).1 := by
  unfold random_fallback
  split_ifs with h5 h2 h7 <;> intro c conf heq
  · simp only [Option.some.injEq, Prod.mk.injEq] at heq
    exact Or.inl heq.1.symm
  · simp only [Option.some.injEq, Prod.mk.injEq] at heq
    exact Or.inr (Or.inl heq.1.symm)
  · simp only [Option.some.injEq, Prod.mk.injEq] at heq
    exact Or.inr (Or.inr heq.1.symm)
  · exact absurd heq (by simp)

lemma finalize_ne_empty (p : Option (String × ℝ) × ℕ) (hp : GoodCls p.1) :
    (finalize p).1.1 ≠ some "" := by
  obtain ⟨o, j⟩ := p
  cases o with
  | none => simp [finalize]
  | some r =>
      obtain ⟨c, conf⟩ := r
      rcases hp c conf rfl with h | h | h <;> simp [finalize, h]

lemma is_near_hotspot_ne_empty (rnd : ℕ → ℝ) (i : ℕ) (lat lon : ℝ) :
    (is_near_hotspot rnd i lat lon).1.1 ≠ some "" := by
  unfold is_near_hotspot
  apply finalize_ne_empty
  apply goodCls_scanThen _ _ (goodCls_scanHotspots _ (Or.inl rfl) _ _ _ _ _)
  intro j
  apply goodCls_scanThen _ _
    (goodCls_scanHotspots _ (Or.inr (Or.inl rfl)) _ _ _ _ _)
  intro j2
  apply goodCls_scanThen _ _
    (goodCls_scanHotspots _ (Or.inr (Or.inr rfl)) _ _ _ _ _)
  intro j3
  exact goodCls_fallback rnd j3

lemma check_for_detection_some {rnd : ℕ → ℝ} {i : ℕ} {uid : String}
    {now : ℚ} {lat lon : ℝ} {c : String} {conf : ℝ} {j : ℕ}
    (h : is_near_hotspot rnd i lat lon = ((some c, conf), j)) :
    check_for_detection rnd i uid now lat lon =
      if c = "" then (none, j)
      else (some { id := uid, timestamp := now, latitude := lat,
                   longitude := lon, classification := c,
                   confidence := conf }, j) := by
  unfold check_for_detection
  rw [h]

lemma check_for_detection_none {rnd : ℕ → ℝ} {i : ℕ} {uid : String}
    {now : ℚ} {lat lon : ℝ} {conf : ℝ} {j : ℕ}
    (h : is_near_hotspot rnd i lat lon = ((none, conf), j)) :
    check_for_detection rnd i uid now lat lon = (none, j) := by
  unfold check_for_detection
  rw [h]

/-- Claim C8: for every position, check_for_detection returns either None
or a detection record whose latitude and longitude equal the queried
position, carrying the classification and confidence returned by
is_near_hotspot together with the fresh id and the current timestamp; a
record is returned exactly when is_near_hotspot returned a non-None
classification. -/
theorem check_for_detection_C8 (rnd : ℕ → ℝ) (i : ℕ) (uid : String)
    (now : ℚ) (lat lon : ℝ) :
    ((check_for_detection rnd i uid now lat lon).1 = none ↔
      (is_near_hotspot rnd i lat lon).1.1 = none) ∧
    ∀ d : SimDetection,
      (check_for_detection rnd i uid now lat lon).1 = some d →
        d.latitude = lat ∧ d.longitude = lon ∧ d.id = uid ∧
        d.timestamp = now ∧
        (is_near_hotspot rnd i lat lon).1.1 = some d.classification ∧
        (is_near_hotspot rnd i lat lon).1.2 = d.confidence := by
  have hne := is_near_hotspot_ne_empty rnd i lat lon
  rcases h : is_near_hotspot rnd i lat lon with ⟨⟨o, conf⟩, j⟩
  rw [h] at hne
  cases o with
  | none =>
      rw [check_for_detection_none h]
      constructor
      · simp
      · intro d hd
        exact absurd hd (by simp)
  | some c =>
      have hc : ¬ c = "" := by
        intro hc0
        exact hne (by rw [hc0])
      rw [check_for_detection_some h, if_neg hc]
      constructor
      · simp
      · intro d hd
        simp only [Option.some.injEq] at hd
        rw [← hd]
        exact ⟨rfl, rfl, rfl, rfl, rfl, rfl⟩

/-- The all-zeroes random stream: every draw is 0. -/
def zeroRnd : ℕ → ℝ := fun _ => 0

lemma distance_self (lat lon : ℝ) : distance lat lon lat lon = 0 := by
  unfold distance
  norm_num

/-- Evaluation of check_for_detection at the center of the first landmine
hotspot with the all-zeroes draw stream: the first distance test passes,
the first draw 0 is below the probability 0.7, and the detection event is
built from the first hotspot. -/
lemma check_for_detection_eval :
    (check_for_detection zeroRnd 0 "id0" 0 34.0522 (-118.2437)).1 =
      some { id := "id0", timestamp := 0, latitude := 34.0522,
             longitude := -118.2437, classification := "Landmine",
             confidence := 0.7 * 100 } := by
  have h1 : distance 34.0522 (-118.2437) 34.0522 (-118.2437) < 0.001 := by
    rw [distance_self]; norm_num
  have h2 : zeroRnd 0 < 0.7 := by
    show (0 : ℝ) < 0.7
    norm_num
  have hmain : is_near_hotspot zeroRnd 0 34.0522 (-118.2437) =
      ((some "Landmine", 0.7 * 100), 1) := by
    unfold is_near_hotspot landmine_hotspots
    simp only [scanHotspots]
    rw [if_pos h1, if_pos h2]
    rfl
  rw [check_for_detection_some hmain,
    if_neg (by decide : ¬("Landmine" : String) = "")]

/-- Witness for C8: at the center of the first landmine hotspot with the
all-zeroes draw stream, a record is returned and its fields match the
query position, the fresh id, the timestamp, and the is_near_hotspot
classification and confidence. -/
theorem check_for_detection_C8_witness :
    (check_for_detection zeroRnd 0 "id0" 0 34.0522 (-118.2437)).1 =
      some (SimDetection.mk "id0" 0 34.0522 (-118.2437) "Landmine" (0.7 * 100)) ∧
    (SimDetection.mk "id0" 0 34.0522 (-118.2437) "Landmine"
        (0.7 * 100)).latitude = 34.0522 ∧
    (SimDetection.mk "id0" 0 34.0522 (-118.2437) "Landmine"
        (0.7 * 100)).longitude = -118.2437 ∧
    (SimDetection.mk "id0" 0 34.0522 (-118.2437) "Landmine"
        (0.7 * 100)).id = "id0" ∧
    (SimDetection.mk "id0" 0 34.0522 (-118.2437) "Landmine"
        (0.7 * 100)).timestamp = 0 ∧
    (is_near_hotspot zeroRnd 0 34.0522 (-118.2437)).1.1 =
      some (SimDetection.mk "id0" 0 34.0522 (-118.2437) "Landmine"
        (0.7 * 100)).classification ∧
    (is_near_hotspot zeroRnd 0 34.0522 (-118.2437)).1.2 =
      (SimDetection.mk "id0" 0 34.0522 (-118.2437) "Landmine"
        (0.7 * 100)).confidence :=
  ⟨check_for_detection_eval,
   (check_for_detection_C8 zeroRnd 0 "id0" 0 34.0522 (-118.2437)).2 _
     check_for_detection_eval⟩

end DetectionSim

/-! ## Persistence layer (src/db.py) -/

namespace Db

/-- One row of the detections table: Detection(id primary key, timestamp,
latitude, longitude, classification, confidence, and the nullable image
fields image_path, x, y, width, height). -/
structure DetectionRow where
  id : String
  timestamp : ℚ
  latitude : ℝ
  longitude : ℝ
  classification : String
  confidence : ℝ
  image_path : Option String
  x : Option ℤ
  y : Option ℤ
  width : Option ℤ
  height : Option ℤ

/-- db.save_detection.  The datastore is the list of committed detection
rows.  The database engine behind the insert-commit is modelled by the
declared schema: id is the primary key, so the commit raises exactly when a
row with the same id is already present.  The try/except of the source then
rolls the transaction back (the committed store is unchanged) and returns
False instead of propagating; on success the new row is committed and True
is returned. -/
def save_detection (db : List DetectionRow) (d : DetectionRow) :
    Bool × List DetectionRow :=
  if db.any (fun r => r.id == d.id) then (false, db)
  else (true, db ++ [d])

/-- Claim C4: save_detection returns True exactly when the insert commits
successfully (no primary-key violation); when the insert raises, the
transaction is rolled back, the datastore is left unchanged and False is
returned rather than the exception propagating; on success the row is
appended. -/
theorem save_detection_C4 (db : List DetectionRow) (d : DetectionRow) :
    ((save_detection db d).1 = true ↔
      db.any (fun r => r.id == d.id) = false) ∧
    ((save_detection db d).1 = true → (save_detection db d).2 = db ++ [d]) ∧
    ((save_detection db d).1 = false → (save_detection db d).2 = db) := by
  unfold save_detection
  by_cases h : db.any (fun r => r.id == d.id) = true
  · rw [if_pos h]
    refine ⟨by simp [h], ?_, fun _ => rfl⟩
    intro hf
    exact absurd hf (by simp)
  · rw [Bool.not_eq_true] at h
    rw [if_neg (by simp [h])]
    refine ⟨by simp [h], fun _ => rfl, ?_⟩
    intro hf
    exact absurd hf (by simp)

/-- Sample detection row used to witness C4. -/
def sampleRow : DetectionRow :=
  { id := "a", timestamp := 0, latitude := 0, longitude := 0,
    classification := "Landmine", confidence := 0, image_path := none,
    x := none, y := none, width := none, height := none }

/-- Witness for C4: inserting into the empty store commits and appends the
row; re-inserting the same id fails and leaves the store unchanged. -/
theorem save_detection_C4_witness :
    (save_detection [] sampleRow).1 = true ∧
    (save_detection [] sampleRow).2 = [] ++ [sampleRow] ∧
    (save_detection [sampleRow] sampleRow).1 = false ∧
    (save_detection [sampleRow] sampleRow).2 = [sampleRow] :=
  ⟨(save_detection_C4 [] sampleRow).1.mpr rfl,
   (save_detection_C4 [] sampleRow).2.1
     ((save_detection_C4 [] sampleRow).1.mpr rfl),
   rfl,
   (save_detection_C4 [sampleRow] sampleRow).2.2 rfl⟩

end Db

/-! ## Image processor (src/image_processor.py) -/

namespace ImageProc

/-- One detection dictionary built by LandmineDetector.detect_landmines:
id, timestamp, image_path, x, y, width, height, confidence,
classification, latitude, longitude. -/
structure ImgDetection where
  id : String
  timestamp : ℚ
  image_path : String
  x : ℤ
  y : ℤ
  width : ℤ
  height : ℤ
  confidence : ℚ
  classification : String
  latitude : ℚ
  longitude : ℚ
deriving DecidableEq

/-- LandmineDetector.predefined_landmines:
(x, y, w, h, confidence, classification) tuples. -/
def predefined_landmines : List (ℤ × ℤ × ℤ × ℤ × ℚ × String) :=
  [(146, 164, 35, 33, 93.5, "Landmine"),
   (396, 139, 37, 35, 93.0, "Landmine"),
   (143, 367, 40, 38, 84.0, "Landmine"),
   (391, 389, 42, 40, 94.0, "Landmine")]

/-- Python substring membership needle in hay. -/
def containsSub (needle hay : String) : Bool :=
  (List.range (hay.length + 1)).any
    (fun k => needle.toList.isPrefixOf (hay.toList.drop k))

/-- The enumerate loop of the predefined branch of detect_landmines: one
detection dictionary per predefined tuple, with a fresh unique id per
iteration (uid applied to the running call index) and simulated geographic
coordinates latitude = 34.0522 + y / 1000 and
longitude = -118.2437 + x / 1000. -/
def build_predefined (uid : ℕ → String) (now : ℚ) (image_path : String) :
    ℕ → List (ℤ × ℤ × ℤ × ℤ × ℚ × String) → List ImgDetection
  | _, [] => []
  | i, (x, y, w, h, conf, cls) :: rest =>
      { id := uid i, timestamp := now, image_path := image_path,
        x := x, y := y, width := w, height := h, confidence := conf,
        classification := cls,
        latitude := 34.0522 + (y : ℚ) / 1000,
        longitude := -118.2437 + (x : ℚ) / 1000 } ::
        build_predefined uid now image_path (i + 1) rest

/-- LandmineDetector.detect_landmines, modelling its environment: readable
says whether the path exists and cv2.imread succeeds on it (otherwise the
raised exception is caught and [] is returned); contour is the
contour-based detection pipeline of the non-demo branch, abstracted as the
list of detections it yields for a path; uid is the generate_unique_id
stream and now the datetime.now() reading.  The image drawing, the
processed-image write and the save_detection calls are side effects that do
not affect the returned list. -/
def detect_landmines (readable : String → Bool)
    (contour : String → List ImgDetection) (uid : ℕ → String) (now : ℚ)
    (image_path : String) : List ImgDetection :=
  if readable image_path then
    if containsSub "landmine_detection1.jpg" image_path then
      build_predefined uid now image_path 0 predefined_landmines
    else contour image_path
  else []

/-- Claim C5: for every image path containing the substring
landmine_detection1.jpg whose file exists and is readable as an image,
detect_landmines returns exactly the four hardcoded detections
(146, 164, 35, 33, 93.5), (396, 139, 37, 35, 93.0),
(143, 367, 40, 38, 84.0), (391, 389, 42, 40, 94.0), all classified
Landmine, with latitude = 34.0522 + y / 1000 and
longitude = -118.2437 + x / 1000; and the contour-based pipeline is not
used (the result does not depend on it). -/
theorem detect_landmines_C5 (readable : String → Bool)
    (contour : String → List ImgDetection) (uid : ℕ → String) (now : ℚ)
    (image_path : String) (hr : readable image_path = true)
    (hsub : containsSub "landmine_detection1.jpg" image_path = true) :
    detect_landmines readable contour uid now image_path =
      [{ id := uid 0, timestamp := now, image_path := image_path, x := 146,
         y := 164, width := 35, height := 33, confidence := 93.5,
         classification := "Landmine",
         latitude := 34.0522 + 164 / 1000,
         longitude := -118.2437 + 146 / 1000 },
       { id := uid 1, timestamp := now, image_path := image_path, x := 396,
         y := 139, width := 37, height := 35, confidence := 93.0,
         classification := "Landmine",
         latitude := 34.0522 + 139 / 1000,
         longitude := -118.2437 + 396 / 1000 },
       { id := uid 2, timestamp := now, image_path := image_path, x := 143,
         y := 367, width := 40, height := 38, confidence := 84.0,
         classification := "Landmine",
         latitude := 34.0522 + 367 / 1000,
         longitude := -118.2437 + 143 / 1000 },
       { id := uid 3, timestamp := now, image_path := image_path, x := 391,
         y := 389, width := 42, height := 40, confidence := 94.0,
         classification := "Landmine",
         latitude := 34.0522 + 389 / 1000,
         longitude := -118.2437 + 391 / 1000 }] ∧
    ∀ contour2 : String → List ImgDetection,
      detect_landmines readable contour uid now image_path =
        detect_landmines readable contour2 uid now image_path := by
  constructor
  · unfold detect_landmines
    rw [if_pos hr, if_pos hsub]
    simp [predefined_landmines, build_predefined]
  · intro contour2
    unfold detect_landmines
    rw [if_pos hr, if_pos hsub, if_pos hr, if_pos hsub]

/-- The demo image path of the repository. -/
def demoPath : String := "sample_images/landmine_detection1.jpg"

/-- Environment in which every path is readable. -/
def allReadable : String → Bool := fun _ => true

/-- A contour pipeline finding nothing, for the witness. -/
def noContour : String → List ImgDetection := fun _ => []

/-- A constant unique-id stream, for the witness. -/
def uidDemo : ℕ → String := fun _ => "uid"

/-- Witness for C5: on the demo image path, which contains the substring
and is readable, the four hardcoded detections are returned. -/
theorem detect_landmines_C5_witness :
    allReadable demoPath = true ∧
    containsSub "landmine_detection1.jpg" demoPath = true ∧
    detect_landmines allReadable noContour uidDemo 0 demoPath =
      [{ id := uidDemo 0, timestamp := 0, image_path := demoPath, x := 146,
         y := 164, width := 35, height := 33, confidence := 93.5,
         classification := "Landmine",
         latitude := 34.0522 + 164 / 1000,
         longitude := -118.2437 + 146 / 1000 },
       { id := uidDemo 1, timestamp := 0, image_path := demoPath, x := 396,
         y := 139, width := 37, height := 35, confidence := 93.0,
         classification := "Landmine",
         latitude := 34.0522 + 139 / 1000,
         longitude := -118.2437 + 396 / 1000 },
       { id := uidDemo 2, timestamp := 0, image_path := demoPath, x := 143,
         y := 367, width := 40, height := 38, confidence := 84.0,
         classification := "Landmine",
         latitude := 34.0522 + 367 / 1000,
         longitude := -118.2437 + 143 / 1000 },
       { id := uidDemo 3, timestamp := 0, image_path := demoPath, x := 391,
         y := 389, width := 42, height := 40, confidence := 94.0,
         classification := "Landmine",
         latitude := 34.0522 + 389 / 1000,
         longitude := -118.2437 + 391 / 1000 }] :=
  ⟨rfl, by decide,
   (detect_landmines_C5 allReadable noContour uidDemo 0 demoPath rfl
     (by decide)).1⟩

end ImageProc

end MineAlert
